import Mathlib

/-!
Verification of the parameter-sweep / interactive re-simulation layer of the
OMPython workshop scripts.

The scripts drive an external Modelica simulation backend (`ModelicaSystem`:
build, `setSimulationOptions`, `setParameters`, `simulate`, `getSolutions`).
We embed the backend as an abstract state-threading function so that backend
invocations (and the options/assignment passed to each one) are observable,
matching the spec's own device of checking backend calls with a call counter.
A backend result of `none` models a raised exception anywhere in the
build/configure/run/read cycle; `some t` models a completed trajectory `t`
(the bundle of series read back with `getSolutions`).

Embedded source functions:
* `workshop/ball/interactive_explorer.py` — `CoolingModelExplorer`
  (`param_ranges`, `current_params`, `simulate`, `update_parameter`);
* `workshop/smr/interactive_dashboard.py` — `SMRDashboard` (same shape,
  different parameters and simulation options);
* `workshop/cooling/simulate_cooling.py` — `simulate_with_parameters`;
* `workshop/smr/parameter_study.py` — `run_parameter_sweep`.

Parameter values are embedded as rationals (the scripts hold them as Python
floats and pass them to the backend as decimal strings; no arithmetic is
performed on them in the embedded code, only storage and comparison).
Decimal constants of the source are written `mkRat mantissa (10 ^ k)`
(for example `0.7` becomes `mkRat 7 10`, `363.15` becomes `mkRat 36315 100`)
so that every constant evaluates by kernel reduction.
-/

namespace Workshop

/-- Parameter names (Python dict keys such as `"h"`, `"UA"`). -/
abbrev ParamName := String

/-- A parameter assignment: an insertion-ordered name-to-value mapping,
mirroring the Python dicts (`current_params`, the argument of
`ModelicaSystem.setParameters`). -/
abbrev Assignment := List (ParamName × ℚ)

/-- `setParam ps n v` mirrors the Python dict update `ps[n] = v`:
an existing key is overwritten in place, a new key is appended. -/
def setParam : Assignment → ParamName → ℚ → Assignment
  | [], n, v => [(n, v)]
  | (k, w) :: rest, n, v =>
    if k = n then (n, v) :: rest else (k, w) :: setParam rest n v

/-- `lookupParam ps n` mirrors the Python dict read `ps[n]` (`none` = KeyError). -/
def lookupParam : Assignment → ParamName → Option ℚ
  | [], _ => none
  | (k, w) :: rest, n => if k = n then some w else lookupParam rest n

/-- The simulation options the scripts pass to `setSimulationOptions`
(`tolerance` is only set by some of them). -/
structure SimOptions where
  stopTime : ℚ
  stepSize : ℚ
  tolerance : Option ℚ
deriving DecidableEq

/-- The simulation backend: given options and a parameter assignment it either
produces a trajectory or raises (`none`).  Backend-side state `σ` is threaded
through every call so invocations are observable. -/
abbrev Backend (σ Traj : Type) := SimOptions → Assignment → σ → Option Traj × σ

/-- Lift a deterministic backend into one that records the trace of its
invocations (options and assignment of every call, in call order). -/
def tracing {Traj : Type} (f : SimOptions → Assignment → Option Traj) :
    Backend (List (SimOptions × Assignment)) Traj :=
  fun opts ps tr => (f opts ps, tr ++ [(opts, ps)])

/-! ## Interactive sessions
(`CoolingModelExplorer` in `ball/interactive_explorer.py` and `SMRDashboard`
in `smr/interactive_dashboard.py`; their `update_parameter` methods have the
same control flow and differ only in parameter table and simulation options). -/

/-- The session state: the `current_params` dict and the trajectory currently
shown by the plot lines (`set_ydata` is only ever called with a freshly
computed solution, so the display always holds some completed trajectory). -/
structure SessionState (Traj : Type) where
  current_params : Assignment
  displayed : Option Traj
deriving DecidableEq

/-- `CoolingModelExplorer.simulate` simulation options (`stopTime='2.0'`,
`stepSize='0.01'`). -/
def ball_options : SimOptions := ⟨2, mkRat 1 100, none⟩

/-- `SMRDashboard.simulate` simulation options (`stopTime='1000'`,
`stepSize='2.0'`). -/
def smr_dashboard_options : SimOptions := ⟨1000, 2, none⟩

/-- `CoolingModelExplorer.param_ranges`: name, (min, max, default). -/
def ball_param_ranges : List (ParamName × ℚ × ℚ × ℚ) :=
  [("h", mkRat 1 10, 2, mkRat 7 10),
   ("m", mkRat 1 100, mkRat 5 10, mkRat 1 10),
   ("A", mkRat 1 10, 3, 1),
   ("T0", 300, 400, mkRat 36315 100),
   ("c_p", mkRat 5 10, 2, mkRat 12 10)]

/-- `SMRDashboard.param_ranges`: name, (min, max, default). -/
def smr_param_ranges : List (ParamName × ℚ × ℚ × ℚ) :=
  [("Q_fission", 50000000, 200000000, 100000000),
   ("eff_thermal", mkRat 20 100, mkRat 45 100, mkRat 35 100),
   ("UA", 20000, 100000, 50000),
   ("m_coolant", 200, 1000, 500)]

/-- `self.current_params = {k: v[2] for k, v in self.param_ranges.items()}`:
the initial assignment maps every defined parameter to its default. -/
def initial_params (ranges : List (ParamName × ℚ × ℚ × ℚ)) : Assignment :=
  ranges.map (fun r => (r.1, r.2.2.2))

/-- `update_parameter(param_name, value)` of both interactive classes:
stores the value in `current_params`, then re-simulates inside `try:`;
on success the plot lines are updated from the new solution, on exception the
error is printed and the previous plot data is left untouched.  Either way
`current_params` keeps the new value. -/
def update_parameter {σ Traj : Type} (opts : SimOptions) (backend : Backend σ Traj)
    (s : SessionState Traj) (bs : σ) (param_name : ParamName) (value : ℚ) :
    SessionState Traj × σ :=
  match backend opts (setParam s.current_params param_name value) bs with
  | (some t, bs') => (⟨setParam s.current_params param_name value, some t⟩, bs')
  | (none, bs') => (⟨setParam s.current_params param_name value, s.displayed⟩, bs')

/-- Process a sequence of slider events: matplotlib delivers the `on_changed`
callbacks sequentially on the single GUI thread, and each `update_parameter`
call runs its re-simulation synchronously before the next event is handled. -/
def run_updates {σ Traj : Type} (opts : SimOptions) (backend : Backend σ Traj)
    (init : SessionState Traj × σ) (updates : List (ParamName × ℚ)) :
    SessionState Traj × σ :=
  updates.foldl (fun sb u => update_parameter opts backend sb.1 sb.2 u.1 u.2) init

/-- The assignment obtained after a sequence of dict updates. -/
def applyUpdates (ps : Assignment) (us : List (ParamName × ℚ)) : Assignment :=
  us.foldl (fun a u => setParam a u.1 u.2) ps

/-! ## Batch sweeps
(`simulate_with_parameters` in `cooling/simulate_cooling.py` and
`run_parameter_sweep` in `smr/parameter_study.py`). -/

/-- One entry of a sweep's result list: the swept value and the trajectory
read back for it (the scripts store the value under `'value'` /
`'param_value'` next to the solution series). -/
structure SweepSample (Traj : Type) where
  value : ℚ
  traj : Traj
deriving DecidableEq

/-- Options fixed inside `simulate_with_parameters`: `stopTime=str(sim_time)`,
`stepSize='0.002'`, `tolerance='1e-6'`. -/
def cooling_options (sim_time : ℚ) : SimOptions :=
  ⟨sim_time, mkRat 2 1000, some (mkRat 1 1000000)⟩

/-- Options fixed inside `run_parameter_sweep`: `stopTime=str(sim_time)`,
`stepSize='1.0'`, no tolerance. -/
def smr_sweep_options (sim_time : ℚ) : SimOptions := ⟨sim_time, 1, none⟩

/-- The inner loop of `simulate_with_parameters` (`for value in param_values`):
each iteration builds a fresh `ModelicaSystem` (so the assignment sent to the
backend is exactly the singleton `{param_name: value}` on top of the model's
own defaults), simulates, and appends the result.  There is no `try`/`except`
in the loop: an exception propagates immediately, so no result list is
produced (`none`), though the backend calls already made remain made. -/
def cooling_sweep_values {σ Traj : Type} (backend : Backend σ Traj)
    (opts : SimOptions) (param_name : ParamName) :
    List ℚ → σ → Option (List (SweepSample Traj)) × σ
  | [], bs => (some [], bs)
  | v :: vs, bs =>
    match backend opts [(param_name, v)] bs with
    | (some t, bs') =>
      match cooling_sweep_values backend opts param_name vs bs' with
      | (some rs, bs'') => (some (⟨v, t⟩ :: rs), bs'')
      | (none, bs'') => (none, bs'')
    | (none, bs') => (none, bs')

/-- `simulate_with_parameters(model_file, model_name, param_variations,
sim_time)`: the outer loop over `param_variations.items()`, running the inner
value loop for each parameter independently and collecting
`results[param_name]` in insertion order.  Any exception propagates. -/
def simulate_with_parameters {σ Traj : Type} (backend : Backend σ Traj) :
    List (ParamName × List ℚ) → ℚ → σ →
      Option (List (ParamName × List (SweepSample Traj))) × σ
  | [], _, bs => (some [], bs)
  | (p, vs) :: rest, sim_time, bs =>
    match cooling_sweep_values backend (cooling_options sim_time) p vs bs with
    | (some rs, bs') =>
      match simulate_with_parameters backend rest sim_time bs' with
      | (some acc, bs'') => (some ((p, rs) :: acc), bs'')
      | (none, bs'') => (none, bs'')
    | (none, bs') => (none, bs')

/-- `run_parameter_sweep(model_file, model_name, param_name, param_values,
sim_time)` of `smr/parameter_study.py`: one value loop, fresh `ModelicaSystem`
per value, results appended in input order, no exception handling in the
loop. -/
def run_parameter_sweep {σ Traj : Type} (backend : Backend σ Traj)
    (param_name : ParamName) :
    List ℚ → ℚ → σ → Option (List (SweepSample Traj)) × σ
  | [], _, bs => (some [], bs)
  | v :: vs, sim_time, bs =>
    match backend (smr_sweep_options sim_time) [(param_name, v)] bs with
    | (some t, bs') =>
      match run_parameter_sweep backend param_name vs sim_time bs' with
      | (some rs, bs'') => (some (⟨v, t⟩ :: rs), bs'')
      | (none, bs'') => (none, bs'')
    | (none, bs') => (none, bs')

/-! ## ParameterSpace validation (spec-modelled)
No script under `src/` implements `ParameterSpace.validate`; the scripts
perform no assignment validation at all.  The definitions below are modelled
from the spec (section 4.1) for the claims that are stated only against the
spec. -/

/-- Modelled from the spec: a `ParameterDefinition` of the missing
`ParameterSpace` component — `name`, `min`, `max`, `default`. -/
structure ParameterDefinition where
  name : ParamName
  min : ℚ
  max : ℚ
  default : ℚ
deriving DecidableEq

/-- Modelled from the spec: the validation error taxonomy of
`ParameterSpace.validate` (`UnknownParameterError`, `OutOfRangeError`). -/
inductive ValidationIssue where
  | unknownParameter : ParamName → ValidationIssue
  | outOfRange : ParamName → ℚ → ValidationIssue
deriving DecidableEq

/-- Look a parameter definition up by name. -/
def findDef : List ParameterDefinition → ParamName → Option ParameterDefinition
  | [], _ => none
  | d :: rest, n => if d.name = n then some d else findDef rest n

/-- Modelled from the spec: the verdict on a single assignment entry —
`UnknownParameterError` for a name not defined, `OutOfRangeError` for a value
outside its parameter's `[min, max]`, no issue otherwise. -/
def entryIssue (space : List ParameterDefinition) (n : ParamName) (v : ℚ) :
    Option ValidationIssue :=
  match findDef space n with
  | none => some (.unknownParameter n)
  | some d => if v < d.min ∨ d.max < v then some (.outOfRange n v) else none

/-- Modelled from the spec: `ParameterSpace.validate(assignment)` — total
validation that reports all offending entries, one error per violation, not
just the first (spec section 4.1; the component is absent from `src/`). -/
def validate (space : List ParameterDefinition) : Assignment → List ValidationIssue
  | [] => []
  | (n, v) :: rest =>
    match entryIssue space n v with
    | some issue => issue :: validate space rest
    | none => validate space rest

/-! ## Concrete backends and inputs used by counterexamples and witnesses. -/

/-- A backend that always succeeds (trajectory `0`). -/
def okBackend : SimOptions → Assignment → Option ℕ := fun _ _ => some 0

/-- A deterministic backend that raises exactly when the assignment is the
singleton `{p: bad}`, and otherwise returns trajectory `0`. -/
def failAt (p : ParamName) (bad : ℚ) : SimOptions → Assignment → Option ℕ :=
  fun _ ps => if ps = [(p, bad)] then none else some 0

/-- A deterministic backend that converges only for `h = 1.0` (returning
trajectory `1`) and raises for every other value of `h`. -/
def staleBackend : SimOptions → Assignment → Option ℕ :=
  fun _ ps => if lookupParam ps "h" = some 1 then some 1 else none

/-- The parameter space of the spec's two-violation validation example
(`h` in `[0.1, 2.0]`, `m` in `[0.01, 0.5]`). -/
def c5_space : List ParameterDefinition :=
  [⟨"h", mkRat 1 10, 2, mkRat 7 10⟩, ⟨"m", mkRat 1 100, mkRat 5 10, mkRat 1 10⟩]

/-- The spec's two-violation assignment `{h: -1, m: 999}`. -/
def c5_assignment : Assignment := [("h", mkRat (-1) 1), ("m", 999)]

/-! ## Helper lemmas -/

theorem setParam_lookup (n : ParamName) (v : ℚ) :
    ∀ ps : Assignment, lookupParam (setParam ps n v) n = some v := by
  intro ps
  induction ps with
  | nil => simp [setParam, lookupParam]
  | cons kv rest ih =>
    obtain ⟨k, w⟩ := kv
    by_cases h : k = n
    · simp [setParam, h, lookupParam]
    · simp [setParam, h, lookupParam, ih]

theorem update_parameter_fst_params {σ Traj : Type} (opts : SimOptions)
    (backend : Backend σ Traj) (s : SessionState Traj) (bs : σ)
    (p : ParamName) (v : ℚ) :
    (update_parameter opts backend s bs p v).1.current_params
      = setParam s.current_params p v := by
  unfold update_parameter
  cases backend opts (setParam s.current_params p v) bs with
  | mk r bs' => cases r <;> rfl

theorem run_updates_cons {σ Traj : Type} (opts : SimOptions) (backend : Backend σ Traj)
    (init : SessionState Traj × σ) (u : ParamName × ℚ) (us : List (ParamName × ℚ)) :
    run_updates opts backend init (u :: us)
      = run_updates opts backend (update_parameter opts backend init.1 init.2 u.1 u.2) us :=
  rfl

theorem run_updates_params {σ Traj : Type} (opts : SimOptions) (backend : Backend σ Traj) :
    ∀ (us : List (ParamName × ℚ)) (init : SessionState Traj × σ),
      (run_updates opts backend init us).1.current_params
        = applyUpdates init.1.current_params us := by
  intro us
  induction us with
  | nil => intro init; rfl
  | cons u rest ih =>
    intro init
    rw [run_updates_cons, ih, update_parameter_fst_params]
    rfl

theorem update_parameter_displayed_of_ok {σ Traj : Type} (opts : SimOptions)
    (backend : Backend σ Traj) (s : SessionState Traj) (bs : σ)
    (p : ParamName) (v : ℚ) (t : Traj)
    (h : (backend opts (setParam s.current_params p v) bs).1 = some t) :
    (update_parameter opts backend s bs p v).1.displayed = some t := by
  unfold update_parameter
  cases hb : backend opts (setParam s.current_params p v) bs with
  | mk r bs' =>
    rw [hb] at h
    cases r
    · exact absurd h (by simp)
    · obtain rfl : _ = t := Option.some.inj h
      rfl

theorem applyUpdates_append (ps : Assignment) (us₁ us₂ : List (ParamName × ℚ)) :
    applyUpdates ps (us₁ ++ us₂) = applyUpdates (applyUpdates ps us₁) us₂ := by
  simp [applyUpdates, List.foldl_append]

theorem run_updates_append {σ Traj : Type} (opts : SimOptions) (backend : Backend σ Traj)
    (init : SessionState Traj × σ) (us₁ us₂ : List (ParamName × ℚ)) :
    run_updates opts backend init (us₁ ++ us₂)
      = run_updates opts backend (run_updates opts backend init us₁) us₂ := by
  simp [run_updates, List.foldl_append]

/-! ## Claim theorems -/

/-- C9 (confirmed): every parameter definition of both interactive sessions
satisfies `min ≤ default ≤ max`, and the initial `current_params` assignment
maps exactly the defined parameters, each to its default. -/
theorem param_defaults_within_bounds :
    (∀ r ∈ ball_param_ranges, r.2.1 ≤ r.2.2.2 ∧ r.2.2.2 ≤ r.2.2.1) ∧
    (∀ r ∈ smr_param_ranges, r.2.1 ≤ r.2.2.2 ∧ r.2.2.2 ≤ r.2.2.1) ∧
    (∀ r ∈ ball_param_ranges,
      lookupParam (initial_params ball_param_ranges) r.1 = some r.2.2.2) ∧
    (∀ r ∈ smr_param_ranges,
      lookupParam (initial_params smr_param_ranges) r.1 = some r.2.2.2) ∧
    (initial_params ball_param_ranges).map Prod.fst = ball_param_ranges.map Prod.fst ∧
    (initial_params smr_param_ranges).map Prod.fst = smr_param_ranges.map Prod.fst := by
  refine ⟨?_, ?_, ?_, ?_, ?_, ?_⟩ <;> decide

/-- Witness for C9: the invariant and the default-coverage statement evaluated
on concrete parameters of both sessions. -/
theorem param_defaults_within_bounds_spot :
    (mkRat 1 10 ≤ mkRat 7 10 ∧ mkRat 7 10 ≤ (2 : ℚ)) ∧
    ((200 : ℚ) ≤ 500 ∧ (500 : ℚ) ≤ 1000) ∧
    lookupParam (initial_params ball_param_ranges) "T0" = some (mkRat 36315 100) ∧
    lookupParam (initial_params smr_param_ranges) "Q_fission" = some 100000000 :=
  ⟨param_defaults_within_bounds.1 ("h", mkRat 1 10, 2, mkRat 7 10) (by decide),
   param_defaults_within_bounds.2.1 ("m_coolant", 200, 1000, 500) (by decide),
   param_defaults_within_bounds.2.2.1 ("T0", 300, 400, mkRat 36315 100) (by decide),
   param_defaults_within_bounds.2.2.2.1
     ("Q_fission", 50000000, 200000000, 100000000) (by decide)⟩

/-- C6 (confirmed): when the re-simulation triggered by `update_parameter`
raises, the `except` branch only prints; the plot lines (`set_ydata`) are
never reached, so the previously displayed trajectory stays on screen. -/
theorem failed_resimulation_keeps_display {σ Traj : Type} (opts : SimOptions)
    (backend : Backend σ Traj) (s : SessionState Traj) (bs : σ)
    (p : ParamName) (v : ℚ)
    (h : (backend opts (setParam s.current_params p v) bs).1 = none) :
    (update_parameter opts backend s bs p v).1.displayed = s.displayed := by
  unfold update_parameter
  cases hb : backend opts (setParam s.current_params p v) bs with
  | mk r bs' =>
    rw [hb] at h
    cases r
    · rfl
    · exact absurd h (by simp)

/-- Witness for C6: a failing re-simulation (`h := 1.2` against a backend that
only converges for `h = 1.0`) leaves the displayed trajectory `0` in place. -/
theorem failed_resimulation_keeps_display_spot :
    (update_parameter ball_options (tracing staleBackend)
        ⟨initial_params ball_param_ranges, some 0⟩ [] "h" (mkRat 12 10)).1.displayed
      = some 0 :=
  failed_resimulation_keeps_display ball_options (tracing staleBackend)
    ⟨initial_params ball_param_ranges, some 0⟩ [] "h" (mkRat 12 10) (by decide)

/-- C10 (confirmed): `update_parameter` stores the new value in
`current_params` before the `try:` block, and a failing re-simulation does not
roll it back — the stored assignment then no longer matches the displayed
trajectory, which is left at the last good one. -/
theorem update_parameter_not_rolled_back {σ Traj : Type} (opts : SimOptions)
    (backend : Backend σ Traj) (s : SessionState Traj) (bs : σ)
    (p : ParamName) (v : ℚ) :
    lookupParam (update_parameter opts backend s bs p v).1.current_params p = some v ∧
    ((backend opts (setParam s.current_params p v) bs).1 = none →
      (update_parameter opts backend s bs p v).1.displayed = s.displayed) := by
  constructor
  · rw [update_parameter_fst_params]
    exact setParam_lookup p v s.current_params
  · intro h
    unfold update_parameter
    cases hb : backend opts (setParam s.current_params p v) bs with
    | mk r bs' =>
      rw [hb] at h
      cases r
      · rfl
      · exact absurd h (by simp)

/-- Witness for C10: after a failed re-simulation for `h := 1.2` the stored
assignment says `h = 1.2` while the display still shows the old trajectory. -/
theorem update_parameter_not_rolled_back_spot :
    lookupParam (update_parameter ball_options (tracing staleBackend)
        ⟨initial_params ball_param_ranges, some 0⟩ [] "h"
        (mkRat 12 10)).1.current_params "h" = some (mkRat 12 10) ∧
    (update_parameter ball_options (tracing staleBackend)
        ⟨initial_params ball_param_ranges, some 0⟩ [] "h" (mkRat 12 10)).1.displayed
      = some 0 :=
  ⟨(update_parameter_not_rolled_back ball_options (tracing staleBackend)
      ⟨initial_params ball_param_ranges, some 0⟩ [] "h" (mkRat 12 10)).1,
   (update_parameter_not_rolled_back ball_options (tracing staleBackend)
      ⟨initial_params ball_param_ranges, some 0⟩ [] "h" (mkRat 12 10)).2 (by decide)⟩

/-- C3 (amended): `update_parameter` performs no bounds validation at all: for
every value — in range or not — it stores the value in `current_params` and
starts exactly one re-simulation (one backend invocation, recorded in the
trace); no `OutOfRangeError` path exists. -/
theorem update_parameter_no_validation {Traj : Type} (opts : SimOptions)
    (f : SimOptions → Assignment → Option Traj) (s : SessionState Traj)
    (tr : List (SimOptions × Assignment)) (p : ParamName) (v : ℚ) :
    (update_parameter opts (tracing f) s tr p v).1.current_params
        = setParam s.current_params p v ∧
    (update_parameter opts (tracing f) s tr p v).2
        = tr ++ [(opts, setParam s.current_params p v)] := by
  unfold update_parameter tracing
  cases f opts (setParam s.current_params p v) <;> exact ⟨rfl, rfl⟩

/-- C3: counterexample — `update_parameter("h", 99)` with `99` outside h's
bounds `[0.1, 2.0]` of `ball_param_ranges` stores the value and invokes the
backend once (trace length 1) instead of surfacing `OutOfRangeError` without
starting a simulation. -/
theorem out_of_range_value_starts_simulation :
    ¬ (mkRat 1 10 ≤ (99 : ℚ) ∧ (99 : ℚ) ≤ 2) ∧
    (update_parameter ball_options (tracing okBackend)
        ⟨initial_params ball_param_ranges, some 0⟩ [] "h" 99).2.length = 1 ∧
    lookupParam (update_parameter ball_options (tracing okBackend)
        ⟨initial_params ball_param_ranges, some 0⟩ [] "h" 99).1.current_params "h"
      = some 99 := by
  refine ⟨?_, ?_, ?_⟩ <;> decide

/-- C1 (amended): slider events are processed synchronously and in order, so
after any event sequence whose final re-simulation succeeds, the displayed
trajectory is exactly the backend's result for the final parameter
assignment — out-of-order backend completion cannot occur. -/
theorem latest_update_wins {Traj : Type} (opts : SimOptions)
    (f : SimOptions → Assignment → Option Traj) (s₀ : SessionState Traj)
    (tr₀ : List (SimOptions × Assignment)) (us : List (ParamName × ℚ))
    (p : ParamName) (v : ℚ) (t : Traj)
    (h : f opts (applyUpdates s₀.current_params (us ++ [(p, v)])) = some t) :
    (run_updates opts (tracing f) (s₀, tr₀) (us ++ [(p, v)])).1.displayed = some t := by
  rw [run_updates_append]
  refine update_parameter_displayed_of_ok opts (tracing f)
    (run_updates opts (tracing f) (s₀, tr₀) us).1
    (run_updates opts (tracing f) (s₀, tr₀) us).2 p v t ?_
  show f opts
      (setParam (run_updates opts (tracing f) (s₀, tr₀) us).1.current_params p v) = some t
  rw [run_updates_params opts (tracing f) us (s₀, tr₀)]
  rw [applyUpdates_append] at h
  exact h

/-- Witness for C1 (amended): a single event `h := 1.0` on the Newton cooling
session against a backend converging for `h = 1.0` displays that result. -/
theorem latest_update_wins_spot :
    (run_updates ball_options (tracing staleBackend)
        (⟨initial_params ball_param_ranges, some 0⟩, [])
        [("h", 1)]).1.displayed = some 1 :=
  latest_update_wins ball_options staleBackend
    ⟨initial_params ball_param_ranges, some 0⟩ [] [] "h" 1 1 (by decide)

/-- C1: counterexample — events `h := 1.0` then `h := 1.2` against a backend
that converges only for `h = 1.0`: the session ends displaying the `h = 1.0`
trajectory (an intermediate parameter set), not a trajectory for the most
recently requested set `h = 1.2`, whose simulation failed. -/
theorem stale_params_trajectory_displayed :
    (run_updates ball_options (tracing staleBackend)
        (⟨initial_params ball_param_ranges, some 0⟩, [])
        [("h", 1), ("h", mkRat 12 10)]).1.displayed = some 1 ∧
    staleBackend ball_options
      (applyUpdates (initial_params ball_param_ranges) [("h", 1), ("h", mkRat 12 10)])
      = none ∧
    staleBackend ball_options
      (applyUpdates (initial_params ball_param_ranges) [("h", 1)]) = some 1 := by
  refine ⟨?_, ?_, ?_⟩ <;> decide

/-! ## Sweep lemmas -/

theorem run_parameter_sweep_ok_values {σ Traj : Type} (backend : Backend σ Traj)
    (p : ParamName) (sim_time : ℚ) :
    ∀ (vs : List ℚ) (bs : σ) (rs : List (SweepSample Traj)) (bs' : σ),
      run_parameter_sweep backend p vs sim_time bs = (some rs, bs') →
      rs.map SweepSample.value = vs := by
  intro vs
  induction vs with
  | nil =>
    intro bs rs bs' h
    simp only [run_parameter_sweep, Prod.mk.injEq, Option.some.injEq] at h
    rw [← h.1]
    rfl
  | cons v rest ih =>
    intro bs rs bs' h
    simp only [run_parameter_sweep] at h
    split at h
    · split at h
      · rename_i rs0 bs2 heq2
        simp only [Prod.mk.injEq, Option.some.injEq] at h
        rw [← h.1]
        simp [ih _ rs0 bs2 heq2]
      · simp at h
    · simp at h

theorem cooling_sweep_values_ok_values {σ Traj : Type} (backend : Backend σ Traj)
    (opts : SimOptions) (p : ParamName) :
    ∀ (vs : List ℚ) (bs : σ) (rs : List (SweepSample Traj)) (bs' : σ),
      cooling_sweep_values backend opts p vs bs = (some rs, bs') →
      rs.map SweepSample.value = vs := by
  intro vs
  induction vs with
  | nil =>
    intro bs rs bs' h
    simp only [cooling_sweep_values, Prod.mk.injEq, Option.some.injEq] at h
    rw [← h.1]
    rfl
  | cons v rest ih =>
    intro bs rs bs' h
    simp only [cooling_sweep_values] at h
    split at h
    · split at h
      · rename_i rs0 bs2 heq2
        simp only [Prod.mk.injEq, Option.some.injEq] at h
        rw [← h.1]
        simp [ih _ rs0 bs2 heq2]
      · simp at h
    · simp at h

theorem cooling_sweep_values_trace_grows {Traj : Type}
    (f : SimOptions → Assignment → Option Traj) (opts : SimOptions) (p : ParamName) :
    ∀ (vs : List ℚ) (tr : List (SimOptions × Assignment)),
      ∃ tr', (cooling_sweep_values (tracing f) opts p vs tr).2 = tr ++ tr' := by
  intro vs
  induction vs with
  | nil => intro tr; exact ⟨[], by simp [cooling_sweep_values]⟩
  | cons v rest ih =>
    intro tr
    cases hf : f opts [(p, v)] with
    | none =>
      refine ⟨[(opts, [(p, v)])], ?_⟩
      simp [cooling_sweep_values, tracing, hf]
    | some t =>
      obtain ⟨tr', htr'⟩ := ih (tr ++ [(opts, [(p, v)])])
      refine ⟨(opts, [(p, v)]) :: tr', ?_⟩
      simp only [cooling_sweep_values, tracing, hf]
      cases hr : cooling_sweep_values (tracing f) opts p rest (tr ++ [(opts, [(p, v)])]) with
      | mk ores bs2 =>
        rw [hr] at htr'
        have hb2 : bs2 = tr ++ [(opts, [(p, v)])] ++ tr' := htr'
        cases ores <;> simp [hb2, List.append_assoc]

theorem cooling_sweep_values_all_ok {Traj : Type}
    (f : SimOptions → Assignment → Option Traj) (opts : SimOptions) (p : ParamName) :
    ∀ (vs : List ℚ) (tr : List (SimOptions × Assignment)),
      (∀ v ∈ vs, (f opts [(p, v)]).isSome = true) →
      ∃ rs, cooling_sweep_values (tracing f) opts p vs tr
        = (some rs, tr ++ vs.map (fun v => (opts, [(p, v)]))) := by
  intro vs
  induction vs with
  | nil => intro tr _; exact ⟨[], by simp [cooling_sweep_values]⟩
  | cons v rest ih =>
    intro tr hall
    obtain ⟨t, ht⟩ := Option.isSome_iff_exists.mp (hall v (by simp))
    obtain ⟨rs, hrs⟩ := ih (tr ++ [(opts, [(p, v)])]) (fun x hx => hall x (by simp [hx]))
    refine ⟨⟨v, t⟩ :: rs, ?_⟩
    simp only [cooling_sweep_values, tracing, ht]
    rw [hrs]
    simp [List.append_assoc]

theorem validate_eq_filterMap (space : List ParameterDefinition) :
    ∀ a : Assignment, validate space a = a.filterMap (fun e => entryIssue space e.1 e.2) := by
  intro a
  induction a with
  | nil => rfl
  | cons e rest ih =>
    obtain ⟨n, v⟩ := e
    simp only [validate]
    cases h : entryIssue space n v <;> simp [List.filterMap_cons, h, ih]

theorem filterMap_length_eq_countP {α β : Type} (g : α → Option β) :
    ∀ l : List α, (l.filterMap g).length = l.countP (fun x => (g x).isSome) := by
  intro l
  induction l with
  | nil => rfl
  | cons x xs ih =>
    cases h : g x <;> simp [List.filterMap_cons, h, List.countP_cons, ih]

/-! ## Claim theorems on sweeps and validation -/

/-- C2 (amended): the sweep loops have no per-value exception handling: a
failure for one value propagates immediately — the values after it are never
simulated, no result is returned for the values that did succeed, and no
per-value failure record or `AllSimulationsFailedError` exists. -/
theorem sweep_aborts_on_first_failure {Traj : Type}
    (f : SimOptions → Assignment → Option Traj) (p : ParamName) (sim_time : ℚ) :
    ∀ (vs₁ : List ℚ) (v : ℚ) (vs₂ : List ℚ) (tr : List (SimOptions × Assignment)),
      (∀ w ∈ vs₁, (f (smr_sweep_options sim_time) [(p, w)]).isSome = true) →
      f (smr_sweep_options sim_time) [(p, v)] = none →
      run_parameter_sweep (tracing f) p (vs₁ ++ v :: vs₂) sim_time tr
        = (none, tr ++ (vs₁ ++ [v]).map (fun w => (smr_sweep_options sim_time, [(p, w)]))) := by
  intro vs₁
  induction vs₁ with
  | nil =>
    intro v vs₂ tr _ hv
    simp [run_parameter_sweep, tracing, hv]
  | cons w ws ih =>
    intro v vs₂ tr hall hv
    obtain ⟨t, ht⟩ := Option.isSome_iff_exists.mp (hall w (by simp))
    simp only [List.cons_append, run_parameter_sweep, tracing, ht, List.append_eq]
    rw [ih v vs₂ (tr ++ [(smr_sweep_options sim_time, [(p, w)])])
      (fun x hx => hall x (List.mem_cons_of_mem w hx)) hv]
    simp [List.append_assoc]

/-- Witness for C2 (amended): the spec's scenario (values `[0.5, 0.7, 1.0, 1.5]`,
backend failing only for `1.5`): the first three values succeed, the failure
at `1.5` aborts the sweep with no returned results. -/
theorem sweep_aborts_on_first_failure_spot :
    run_parameter_sweep (tracing (failAt "UA" (mkRat 15 10))) "UA"
        [mkRat 5 10, mkRat 7 10, 1, mkRat 15 10] 1000 []
      = (none,
         [mkRat 5 10, mkRat 7 10, 1, mkRat 15 10].map
           (fun w => (smr_sweep_options 1000, [("UA", w)]))) :=
  sweep_aborts_on_first_failure (failAt "UA" (mkRat 15 10)) "UA" 1000
    [mkRat 5 10, mkRat 7 10, 1] (mkRat 15 10) [] [] (by decide) (by decide)

/-- C2: counterexample — with values `[0.5, 0.7, 1.0, 1.5]` and a backend that
deterministically fails only for `1.5`, `run_parameter_sweep` raises (returns
no result list) instead of returning the 3 successful trajectories with a
recorded failure for `1.5`. -/
theorem partial_failure_aborts_sweep :
    (run_parameter_sweep (tracing (failAt "UA" (mkRat 15 10))) "UA"
        [mkRat 5 10, mkRat 7 10, 1, mkRat 15 10] 1000 []).1 = none ∧
    failAt "UA" (mkRat 15 10) (smr_sweep_options 1000) [("UA", mkRat 5 10)] = some 0 ∧
    failAt "UA" (mkRat 15 10) (smr_sweep_options 1000) [("UA", mkRat 7 10)] = some 0 ∧
    failAt "UA" (mkRat 15 10) (smr_sweep_options 1000) [("UA", 1)] = some 0 ∧
    failAt "UA" (mkRat 15 10) (smr_sweep_options 1000) [("UA", mkRat 15 10)] = none := by
  refine ⟨?_, ?_, ?_, ?_, ?_⟩ <;> decide

/-- C4 (amended): no options validation exists: even when
`stepSize ≥ stopTime` (any `sim_time ≤ 0.002` against the fixed stepSize
`0.002`), the sweep invokes the backend — the offending request appears in
the backend's call trace and no `InvalidOptionsError` is raised. -/
theorem backend_called_despite_bad_options {Traj : Type}
    (f : SimOptions → Assignment → Option Traj) (p : ParamName) (v : ℚ) (vs : List ℚ)
    (sim_time : ℚ) (tr₀ : List (SimOptions × Assignment))
    (h : sim_time ≤ mkRat 2 1000) :
    (cooling_options sim_time).stopTime ≤ (cooling_options sim_time).stepSize ∧
    (cooling_options sim_time, [(p, v)])
      ∈ (simulate_with_parameters (tracing f) [(p, v :: vs)] sim_time tr₀).2 := by
  refine ⟨h, ?_⟩
  cases hf : f (cooling_options sim_time) [(p, v)] with
  | none =>
    simp [simulate_with_parameters, cooling_sweep_values, tracing, hf]
  | some t =>
    obtain ⟨tr', htr'⟩ := cooling_sweep_values_trace_grows f (cooling_options sim_time) p vs
      (tr₀ ++ [(cooling_options sim_time, [(p, v)])])
    simp only [simulate_with_parameters, cooling_sweep_values, tracing, hf]
    cases hr : cooling_sweep_values (tracing f) (cooling_options sim_time) p vs
        (tr₀ ++ [(cooling_options sim_time, [(p, v)])]) with
    | mk ores bs2 =>
      rw [hr] at htr'
      have hb2 : bs2 = tr₀ ++ [(cooling_options sim_time, [(p, v)])] ++ tr' := htr'
      cases ores with
      | none => simp [hb2]
      | some rs => simp [simulate_with_parameters, hb2]

/-- Witness for C4 (amended): `sim_time = 0.001` with the fixed stepSize
`0.002` — the backend is still called with that request. -/
theorem backend_called_despite_bad_options_spot :
    (cooling_options (mkRat 1 1000)).stopTime ≤ (cooling_options (mkRat 1 1000)).stepSize ∧
    (cooling_options (mkRat 1 1000), [("h", mkRat 5 10)])
      ∈ (simulate_with_parameters (tracing okBackend) [("h", [mkRat 5 10])]
          (mkRat 1 1000) []).2 :=
  backend_called_despite_bad_options okBackend "h" (mkRat 5 10) [] (mkRat 1 1000) []
    (by decide)

/-- C4: counterexample — a sweep request with `stopTime = 0.001 ≤ stepSize =
0.002` invokes the backend once (trace length 1) and completes normally,
instead of failing with `InvalidOptionsError` before any backend call. -/
theorem bad_options_invoke_backend :
    (cooling_options (mkRat 1 1000)).stopTime ≤ (cooling_options (mkRat 1 1000)).stepSize ∧
    (simulate_with_parameters (tracing okBackend) [("h", [mkRat 5 10])]
        (mkRat 1 1000) []).2.length = 1 ∧
    (simulate_with_parameters (tracing okBackend) [("h", [mkRat 5 10])]
        (mkRat 1 1000) []).1.isSome = true := by
  refine ⟨?_, ?_, ?_⟩ <;> decide

/-- C7 (confirmed): whenever a sweep returns a result list (both the smr sweep
and the cooling per-parameter loop), its entries are exactly the requested
values in input order — the loops are sequential, so completion order is
request order. -/
theorem sweep_preserves_input_order {σ Traj : Type} (backend : Backend σ Traj)
    (p : ParamName) (opts : SimOptions) (sim_time : ℚ) (vs : List ℚ) (bs : σ) :
    (∀ rs bs', run_parameter_sweep backend p vs sim_time bs = (some rs, bs') →
      rs.map SweepSample.value = vs) ∧
    (∀ rs bs', cooling_sweep_values backend opts p vs bs = (some rs, bs') →
      rs.map SweepSample.value = vs) :=
  ⟨fun rs bs' h => run_parameter_sweep_ok_values backend p sim_time vs bs rs bs' h,
   fun rs bs' h => cooling_sweep_values_ok_values backend opts p vs bs rs bs' h⟩

/-- Witness for C7: a concrete three-value sweep returns its samples in input
order `[1, 2, 3]`. -/
theorem sweep_preserves_input_order_spot :
    ([⟨1, 0⟩, ⟨2, 0⟩, ⟨3, 0⟩] : List (SweepSample ℕ)).map SweepSample.value = [1, 2, 3] :=
  (sweep_preserves_input_order (tracing okBackend) "UA" (smr_sweep_options 1000) 1000
      [1, 2, 3] []).1 [⟨1, 0⟩, ⟨2, 0⟩, ⟨3, 0⟩]
    ([1, 2, 3].map (fun w => (smr_sweep_options 1000, [("UA", w)]))) (by decide)

/-- C8 (confirmed): `simulate_with_parameters` is one-factor-at-a-time: with a
total backend, the full call trace is exactly one singleton assignment
`{p: v}` per swept value of each parameter against the same base model — the
calls are the concatenation over parameters, never a cross-product grid. -/
theorem one_factor_at_a_time {Traj : Type}
    (f : SimOptions → Assignment → Option Traj)
    (variations : List (ParamName × List ℚ)) (sim_time : ℚ)
    (tr₀ : List (SimOptions × Assignment))
    (h : ∀ opts ps, (f opts ps).isSome = true) :
    (simulate_with_parameters (tracing f) variations sim_time tr₀).2
      = tr₀ ++ variations.flatMap
          (fun pv => pv.2.map (fun v => (cooling_options sim_time, [(pv.1, v)]))) := by
  induction variations generalizing tr₀ with
  | nil => simp [simulate_with_parameters]
  | cons pv rest ih =>
    obtain ⟨p, vs⟩ := pv
    obtain ⟨rs, hrs⟩ := cooling_sweep_values_all_ok f (cooling_options sim_time) p vs tr₀
      (fun v _ => h _ _)
    simp only [simulate_with_parameters]
    rw [hrs]
    cases hrec : simulate_with_parameters (tracing f) rest sim_time
        (tr₀ ++ vs.map (fun v => (cooling_options sim_time, [(p, v)]))) with
    | mk oacc bs2 =>
      have h2 := ih (tr₀ ++ vs.map (fun v => (cooling_options sim_time, [(p, v)])))
      rw [hrec] at h2
      have hb2 : bs2
          = tr₀ ++ vs.map (fun v => (cooling_options sim_time, [(p, v)]))
              ++ rest.flatMap
                (fun pv => pv.2.map (fun v => (cooling_options sim_time, [(pv.1, v)]))) := h2
      simp only [hrec]
      cases oacc <;> simp [hb2, List.append_assoc]

/-- Witness for C8: two parameters with two and one values produce exactly
three singleton-assignment backend calls, in parameter-then-value order. -/
theorem one_factor_at_a_time_spot :
    (simulate_with_parameters (tracing okBackend)
        [("h", [1, 2]), ("m", [3])] (mkRat 15 10) []).2
      = [(cooling_options (mkRat 15 10), [("h", 1)]),
         (cooling_options (mkRat 15 10), [("h", 2)]),
         (cooling_options (mkRat 15 10), [("m", 3)])] := by
  have h := one_factor_at_a_time okBackend [("h", [1, 2]), ("m", [3])] (mkRat 15 10) []
    (fun _ _ => rfl)
  simpa using h

/-- C5 (confirmed, spec-modelled): validation is total over the assignment's
entries: even with two or more violations, `validate` reports one error per
offending entry and every offending entry's error is in the report. -/
theorem validate_reports_all_violations (space : List ParameterDefinition)
    (a : Assignment)
    (_h : 2 ≤ a.countP (fun e => (entryIssue space e.1 e.2).isSome)) :
    (validate space a).length = a.countP (fun e => (entryIssue space e.1 e.2).isSome) ∧
    ∀ e ∈ a, ∀ issue, entryIssue space e.1 e.2 = some issue → issue ∈ validate space a := by
  constructor
  · rw [validate_eq_filterMap, filterMap_length_eq_countP]
  · intro e he issue hissue
    rw [validate_eq_filterMap]
    exact List.mem_filterMap.mpr ⟨e, he, hissue⟩

/-- Witness for C5: the spec's example `{h: -1, m: 999}` against
`h ∈ [0.1, 2.0]`, `m ∈ [0.01, 0.5]` yields both OutOfRange errors. -/
theorem validate_reports_all_violations_spot :
    (validate c5_space c5_assignment).length = 2 ∧
    ValidationIssue.outOfRange "h" (mkRat (-1) 1) ∈ validate c5_space c5_assignment ∧
    ValidationIssue.outOfRange "m" 999 ∈ validate c5_space c5_assignment := by
  have h := validate_reports_all_violations c5_space c5_assignment (by decide)
  refine ⟨?_, ?_, ?_⟩
  · rw [h.1]; decide
  · exact h.2 ("h", mkRat (-1) 1) (by decide)
      (ValidationIssue.outOfRange "h" (mkRat (-1) 1)) (by decide)
  · exact h.2 ("m", 999) (by decide) (ValidationIssue.outOfRange "m" 999) (by decide)

end Workshop
